import Mathlib

/-!
Shallow embedding of `src/mbr/writer.rs` (crate `drive-part`): the MBR
builder data model, its fluent configuration methods, `compile`, and
`commit`.  Byte strings are `List Nat`; `SystemTime` is an opaque `Nat`;
Rust panics are modelled as the `.error` side of `Except PanicMsg _`.
-/

namespace DrivePart

/-- Identify another partition by its relative or absolute index
(`PartRef` in the source). -/
inductive PartRef where
  | Previous (n : Nat)
  | Next (n : Nat)
  | Exact (n : Nat)
deriving DecidableEq, Repr

/-- "Partition edge should be located [X]" (`LocSpec`). -/
inductive LocSpec where
  | AtEndOf (r : PartRef)
  | AtStartOf (r : PartRef)
deriving DecidableEq, Repr

/-- "Partition index should be [X]" (`NumSpec`). -/
inductive NumSpec where
  | Exact (n : Nat)
  | AfterPart (r : PartRef)
  | BeforePart (r : PartRef)
deriving DecidableEq, Repr

/-- Requirements that can be applied to a given partition (`PartSpec`). -/
inductive PartSpec where
  | Number (n : NumSpec)
  | Start (l : LocSpec)
  | End (l : LocSpec)
  | IsBootable
deriving DecidableEq, Repr

/-- A series of constraints on one requested partition (`MbrPartSpec`). -/
structure MbrPartSpec where
  specs : List PartSpec
deriving DecidableEq, Repr

/-- `MbrPartSpec::is_bootable`: the `for` loop returns `true` on the first
`IsBootable` constraint, else `false`. -/
def MbrPartSpec.is_bootable (p : MbrPartSpec) : Bool :=
  p.specs.any fun s =>
    match s with
    | PartSpec.IsBootable => true
    | _ => false

/-- A physical (real) MBR partition (`MbrPhysPart`); the Rust field `end`
is a Lean keyword and is rendered `end_`. -/
structure MbrPhysPart where
  number : Nat
  start : Nat
  end_ : Nat
  bootable : Bool
deriving DecidableEq, Repr

def MbrPhysPart.is_primary (p : MbrPhysPart) : Bool :=
  p.number < 4

def MbrPhysPart.is_extended (p : MbrPhysPart) : Bool :=
  !p.is_primary

/-- `MbrBuilderError`: the closed set of validation failures.  Payloads
mirror the Rust enum exactly (`OriginalPhysDriveOverlapped` and
`DiskSigOverlapped` carry none). -/
inductive MbrBuilderError where
  | BootcodeOversized (n : Nat)
  | Bootcode2Oversized (n : Nat)
  | OriginalPhysDriveOverlapped
  | DiskSigOverlapped
  | BootCodeOverlapped (b1 b2 : Nat)
  | MoreThan1Bootable
deriving DecidableEq, Repr

/-- Rust panics reachable from the embedded functions, with the data their
messages interpolate. -/
inductive PanicMsg where
  | bootcodeTooLong (got : Nat)
  | bootcode2TooLong (got : Nat)
  | unimplemented
deriving DecidableEq, Repr

/-- `MbrBuilder`: accumulated configuration state. -/
structure MbrBuilder where
  bootcode : Option (List Nat)
  bootcode_2 : Option (List Nat)
  partitions : List MbrPartSpec
  timestamp : Option Nat
  original_physical_drive : Option Nat
  disk_sig : Option (Nat × Nat)
deriving DecidableEq, Repr

namespace MbrBuilder

/-- `MbrBuilder::new`. -/
def new : MbrBuilder :=
  { bootcode := none
    bootcode_2 := none
    partitions := []
    timestamp := none
    original_physical_drive := none
    disk_sig := none }

/-- `MbrBuilder::set_bootcode`; the `code.len() > 446` panic is the
`.error` case, carrying the length its message reports. -/
def set_bootcode (self : MbrBuilder) (code : List Nat) :
    Except PanicMsg MbrBuilder :=
  if 446 < code.length then
    Except.error (PanicMsg.bootcodeTooLong code.length)
  else
    Except.ok { self with bootcode := some code }

/-- `MbrBuilder::set_timestamp`. -/
def set_timestamp (self : MbrBuilder) (ts : Nat) : MbrBuilder :=
  { self with timestamp := some ts }

/-- `MbrBuilder::set_original_physical_drive`. -/
def set_original_physical_drive (self : MbrBuilder) (drv : Nat) : MbrBuilder :=
  { self with original_physical_drive := some drv }

/-- `MbrBuilder::set_bootcode_part2`; the `code.len() > 222` panic is the
`.error` case, carrying the length its message reports. -/
def set_bootcode_part2 (self : MbrBuilder) (code : List Nat) :
    Except PanicMsg MbrBuilder :=
  if 222 < code.length then
    Except.error (PanicMsg.bootcode2TooLong code.length)
  else
    Except.ok { self with bootcode_2 := some code }

/-- `MbrBuilder::set_disk_signature`. -/
def set_disk_signature (self : MbrBuilder) (sig : Nat) (extra : Nat) :
    MbrBuilder :=
  { self with disk_sig := some (sig, extra) }

/-- `MbrBuilder::partition_add` (`Vec::push` appends at the end). -/
def partition_add (self : MbrBuilder) (spec : MbrPartSpec) : MbrBuilder :=
  { self with partitions := self.partitions ++ [spec] }

/-- `MbrBuilder::is_modern`. -/
def is_modern (self : MbrBuilder) : Bool :=
  self.bootcode_2.isSome ||
    self.original_physical_drive.isSome ||
    self.timestamp.isSome ||
    self.disk_sig.isSome

/-- The loop body of `MbrBuilder::partition_check`, with `fb` the "already
saw a bootable partition" flag. -/
def partition_check_go : List MbrPartSpec → Bool → Except MbrBuilderError Unit
  | [], _ => Except.ok ()
  | p :: rest, fb =>
    if p.is_bootable then
      if fb then Except.error MbrBuilderError.MoreThan1Bootable
      else partition_check_go rest true
    else partition_check_go rest fb

/-- `MbrBuilder::partition_check`. -/
def partition_check (self : MbrBuilder) : Except MbrBuilderError Unit :=
  partition_check_go self.partitions false

/-- `b1` in `compile`: `self.bootcode.as_ref().map_or(0, |x| x.len())`. -/
def bootcodeLen (self : MbrBuilder) : Nat :=
  self.bootcode.elim 0 List.length

/-- `b2` in `compile`. -/
def bootcode2Len (self : MbrBuilder) : Nat :=
  self.bootcode_2.elim 0 List.length

end MbrBuilder

/-- `MbrWriter`: the validated result of a successful `compile`. -/
structure MbrWriter where
  inner : MbrBuilder
deriving DecidableEq, Repr

/-- `MbrBuilder::compile`: the four field-budget checks in source order;
note that it does not invoke `partition_check` (the source holds a
`TODO: confirm that partition specification is valid`). -/
def MbrBuilder.compile (self : MbrBuilder) : Except MbrBuilderError MbrWriter :=
  let b1 := self.bootcodeLen
  let b2 := self.bootcode2Len
  if self.original_physical_drive.isSome && decide (218 < b1) then
    Except.error MbrBuilderError.OriginalPhysDriveOverlapped
  else if self.timestamp.isSome && decide (221 < b1) then
    Except.error (MbrBuilderError.BootcodeOversized b1)
  else if self.disk_sig.isSome && (decide (440 < b1) || decide (216 < b2)) then
    Except.error MbrBuilderError.DiskSigOverlapped
  else if decide (0 < b2) && decide (224 < b1) then
    Except.error (MbrBuilderError.BootCodeOverlapped b1 b2)
  else
    Except.ok { inner := self }

/-- `MbrWriter::is_modern`: delegates to the held builder. -/
def MbrWriter.is_modern (self : MbrWriter) : Bool :=
  self.inner.is_modern

/-- One call to the injected write-at-offset capability. -/
structure WriteOp where
  offset : Nat
  data : List Nat
deriving DecidableEq, Repr

/-- `MbrWriter::commit`: the body is `unimplemented!()` before any use of
the backing store, so the panic fires and no write is issued; the result
is the trace of write-at-offset calls a successful run would have made. -/
def MbrWriter.commit (_self : MbrWriter) : Except PanicMsg (List WriteOp) :=
  Except.error PanicMsg.unimplemented

/-! ## Layout resolver, modelled from the spec

The repository contains no layout-resolver code: `MbrWriter::commit` holds
only the comment "Confirm that given the size of the device, the requested
partition specs result in an allowed layout".  The definitions below are
modelled from the spec.
-/

/-- Modelled from the spec: the validation failures of the Layout Resolver
(spec sections 4.1 and 7), which is missing from the source. -/
inductive ResolveError where
  | UnresolvedNumber (specIdx : Nat)
  | UnresolvedStart (specIdx : Nat)
  | UnresolvedEnd (specIdx : Nat)
  | MoreThan1Bootable
  | LayoutInfeasible
deriving DecidableEq, Repr

/-- Iterate a function `n` times (bounded fixed-point iteration). -/
def iterN (f : α → α) : Nat → α → α
  | 0, x => x
  | n + 1, x => iterN f n (f x)

/-- First `Number` constraint of a spec, if any. -/
def specNum (p : MbrPartSpec) : Option NumSpec :=
  p.specs.findSome? fun s =>
    match s with
    | PartSpec.Number n => some n
    | _ => none

/-- First `Start` constraint of a spec, if any. -/
def specStart (p : MbrPartSpec) : Option LocSpec :=
  p.specs.findSome? fun s =>
    match s with
    | PartSpec.Start l => some l
    | _ => none

/-- First `End` constraint of a spec, if any. -/
def specEnd (p : MbrPartSpec) : Option LocSpec :=
  p.specs.findSome? fun s =>
    match s with
    | PartSpec.End l => some l
    | _ => none

/-- Modelled from the spec: resolve a `PartRef` seen from the spec at
document position `i` to a document index.  `Previous`/`Next` are relative
to document order; `Exact n` names the spec currently assigned partition
number `n`. -/
def resolveRef (len : Nat) (numbers : List (Option Nat)) (i : Nat) :
    PartRef → Option Nat
  | PartRef.Previous n => if n ≤ i then some (i - n) else none
  | PartRef.Next n => if i + 1 + n < len then some (i + 1 + n) else none
  | PartRef.Exact n => numbers.findIdx? (fun x => x == some n)

/-- Initial number assignment: `NumSpec.Exact` is fixed immediately. -/
def numInit (specs : List MbrPartSpec) : List (Option Nat) :=
  specs.map fun p =>
    match specNum p with
    | some (NumSpec.Exact n) => some n
    | _ => none

/-- One fixed-point pass of number assignment: `AfterPart`/`BeforePart`
resolve once the referenced spec's number is fixed (`BeforePart` of number
0 truncates at 0; the spec leaves that case open and validation rejects
the resulting duplicate). -/
def numStep (specs : List MbrPartSpec) (numbers : List (Option Nat)) :
    List (Option Nat) :=
  (List.range specs.length).map fun i =>
    match numbers.getD i none with
    | some n => some n
    | none =>
      match specs.getD i { specs := [] } |> specNum with
      | some (NumSpec.AfterPart r) =>
        match resolveRef specs.length numbers i r with
        | some j => (numbers.getD j none).map (· + 1)
        | none => none
      | some (NumSpec.BeforePart r) =>
        match resolveRef specs.length numbers i r with
        | some j => (numbers.getD j none).map (· - 1)
        | none => none
      | _ => none

/-- Turn a fully-resolved assignment into a plain list, or report the
document index of the first unresolved entry. -/
def collectResolved (e : Nat → ResolveError) :
    List (Option Nat) → Nat → Except ResolveError (List Nat)
  | [], _ => Except.ok []
  | some a :: rest, i =>
    (collectResolved e rest (i + 1)).map fun l => a :: l
  | none :: _rest, i => Except.error (e i)

/-- Modelled from the spec: the numbering pass (spec section 4.1 step 2).
A spec with no `Number` constraint defaults to its document index. -/
def assignNumbers (specs : List MbrPartSpec) :
    Except ResolveError (List Nat) :=
  let numbers := iterN (numStep specs) specs.length (numInit specs)
  let filled := (List.range specs.length).map fun i =>
    match numbers.getD i none with
    | some n => some n
    | none =>
      match specs.getD i { specs := [] } |> specNum with
      | none => some i
      | some _ => none
  collectResolved ResolveError.UnresolvedNumber filled 0

/-- Resolve a `LocSpec` against the partially-resolved edges. -/
def resolveLoc (len : Nat) (numbers : List Nat)
    (starts ends : List (Option Nat)) (i : Nat) : LocSpec → Option Nat
  | LocSpec.AtStartOf r =>
    (resolveRef len (numbers.map some) i r).bind fun j => starts.getD j none
  | LocSpec.AtEndOf r =>
    (resolveRef len (numbers.map some) i r).bind fun j => ends.getD j none

/-- Modelled from the spec: one fixed-point pass of edge resolution (spec
section 4.1 steps 3 and 4).  A spec with no `Start` anchors at byte 512
(after the reserved MBR header) when it is partition number 0; a spec with
no `End` extends to the start of the partition numbered one higher, or to
the device's end when there is none. -/
def edgeStep (specs : List MbrPartSpec) (numbers : List Nat) (dev : Nat)
    (se : List (Option Nat) × List (Option Nat)) :
    List (Option Nat) × List (Option Nat) :=
  let starts := se.1
  let ends := se.2
  let len := specs.length
  let starts2 := (List.range len).map fun i =>
    match starts.getD i none with
    | some v => some v
    | none =>
      match specs.getD i { specs := [] } |> specStart with
      | some l => resolveLoc len numbers starts ends i l
      | none => if numbers.getD i 0 = 0 then some 512 else none
  let ends2 := (List.range len).map fun i =>
    match ends.getD i none with
    | some v => some v
    | none =>
      match specs.getD i { specs := [] } |> specEnd with
      | some l => resolveLoc len numbers starts ends i l
      | none =>
        match numbers.findIdx? (fun m => m == numbers.getD i 0 + 1) with
        | some j => starts.getD j none
        | none => some dev
  (starts2, ends2)

/-- Assemble the resolved physical partitions. -/
def buildParts (specs : List MbrPartSpec)
    (numbers starts ends : List Nat) : List MbrPhysPart :=
  (List.range specs.length).map fun i =>
    { number := numbers.getD i 0
      start := starts.getD i 0
      end_ := ends.getD i 0
      bootable := (specs.getD i { specs := [] }).is_bootable }

/-- Two partitions occupy disjoint half-open byte ranges. -/
def disjointB (p q : MbrPhysPart) : Bool :=
  decide (p.end_ ≤ q.start) || decide (q.end_ ≤ p.start)

/-- All pairs of partitions in the list are disjoint. -/
def pairwiseDisjointB : List MbrPhysPart → Bool
  | [] => true
  | p :: rest => rest.all (disjointB p) && pairwiseDisjointB rest

/-- The partition's half-open range is nonempty and inside
`[0, dev)`. -/
def withinDeviceB (dev : Nat) (p : MbrPhysPart) : Bool :=
  decide (p.start < p.end_) && decide (p.end_ ≤ dev)

/-- Number of partitions flagged bootable. -/
def bootableCount (ps : List MbrPhysPart) : Nat :=
  (ps.filter fun p => p.bootable).length

/-- Modelled from the spec: the final layout validation (spec section 4.1
steps 5 and 7): ranges within the device, pairwise non-overlap, only
primary slots 0 to 3. -/
def layoutOk (dev : Nat) (ps : List MbrPhysPart) : Bool :=
  ps.all (withinDeviceB dev) &&
    pairwiseDisjointB ps &&
    ps.all (fun p => decide (p.number < 4)) &&
    decide (ps.length ≤ 4)

/-- Bounded fixed-point edge resolution: iterate `edgeStep` starting from
fully-unresolved edges. -/
def resolvedEdges (specs : List MbrPartSpec) (numbers : List Nat)
    (dev : Nat) : List (Option Nat) × List (Option Nat) :=
  iterN (edgeStep specs numbers dev) (specs.length + 1)
    (List.replicate specs.length none, List.replicate specs.length none)

/-- Modelled from the spec: the Layout Resolver (spec section 4.1), which
is missing from the source (`commit` holds only a TODO).  Numbering pass,
then bounded fixed-point edge resolution, then validation. -/
def resolveLayout (specs : List MbrPartSpec) (dev : Nat) :
    Except ResolveError (List MbrPhysPart) :=
  match assignNumbers specs with
  | Except.error e => Except.error e
  | Except.ok numbers =>
    match collectResolved ResolveError.UnresolvedStart
        (resolvedEdges specs numbers dev).1 0 with
    | Except.error e => Except.error e
    | Except.ok starts =>
      match collectResolved ResolveError.UnresolvedEnd
          (resolvedEdges specs numbers dev).2 0 with
      | Except.error e => Except.error e
      | Except.ok ends =>
        if 1 < bootableCount (buildParts specs numbers starts ends) then
          Except.error ResolveError.MoreThan1Bootable
        else if layoutOk dev (buildParts specs numbers starts ends) then
          Except.ok (buildParts specs numbers starts ends)
        else Except.error ResolveError.LayoutInfeasible

/-! ## Concrete inputs used by the theorems -/

/-- Bootcode of length 440, disk signature set, bootcode part 2 of
length 216. -/
def c1builderA : MbrBuilder :=
  { bootcode := some (List.replicate 440 0)
    bootcode_2 := some (List.replicate 216 0)
    partitions := []
    timestamp := none
    original_physical_drive := none
    disk_sig := some (0, 0) }

/-- Same as `c1builderA` with bootcode of length 441. -/
def c1builderB : MbrBuilder :=
  { c1builderA with bootcode := some (List.replicate 441 0) }

/-- Two partition specs, each carrying an `IsBootable` constraint. -/
def c2builder : MbrBuilder :=
  { MbrBuilder.new with
      partitions := [{ specs := [PartSpec.IsBootable] },
        { specs := [PartSpec.IsBootable] }] }

/-- A directly-constructed state whose bootcode is 447 bytes long (not
reachable through `set_bootcode`, which panics at 447). -/
def c3builder : MbrBuilder :=
  { MbrBuilder.new with bootcode := some (List.replicate 447 0) }

/-- Original physical drive set, bootcode of length 219. -/
def c4builderA : MbrBuilder :=
  { MbrBuilder.new with
      original_physical_drive := some 128
      bootcode := some (List.replicate 219 0) }

/-- Original physical drive set, bootcode of length 220. -/
def c4builderB : MbrBuilder :=
  { c4builderA with bootcode := some (List.replicate 220 0) }

/-- Bootcode part 2 present but empty, bootcode of length 225. -/
def c5builder : MbrBuilder :=
  { MbrBuilder.new with
      bootcode := some (List.replicate 225 0)
      bootcode_2 := some [] }

/-- Bootcode part 2 of length 1, bootcode of length 225. -/
def c5builderW : MbrBuilder :=
  { MbrBuilder.new with
      bootcode := some (List.replicate 225 0)
      bootcode_2 := some [7] }

/-- One partition spec with no constraints. -/
def c7builder : MbrBuilder :=
  MbrBuilder.new.partition_add { specs := [] }

/-- The layout `resolveLayout` produces for `c7builder` on a 4096-byte
device. -/
def c7parts : List MbrPhysPart :=
  [{ number := 0, start := 512, end_ := 4096, bootable := false }]

set_option maxRecDepth 8000

/-! ## Helper lemmas -/

theorem pairwiseDisjointB_pairwise {ps : List MbrPhysPart}
    (h : pairwiseDisjointB ps = true) :
    ps.Pairwise fun p q => p.end_ ≤ q.start ∨ q.end_ ≤ p.start := by
  induction ps with
  | nil => simp
  | cons p rest ih =>
    simp only [pairwiseDisjointB, Bool.and_eq_true, List.all_eq_true] at h
    refine List.Pairwise.cons (fun q hq => ?_) (ih h.2)
    simpa [disjointB, Bool.or_eq_true, decide_eq_true_eq] using h.1 q hq

theorem layoutOk_bounds {dev : Nat} {ps : List MbrPhysPart}
    (h : layoutOk dev ps = true) :
    (ps.Pairwise fun p q => p.end_ ≤ q.start ∨ q.end_ ≤ p.start) ∧
      ∀ p ∈ ps, p.start < p.end_ ∧ p.end_ ≤ dev := by
  simp only [layoutOk, Bool.and_eq_true, List.all_eq_true] at h
  obtain ⟨⟨⟨hw, hd⟩, _⟩, _⟩ := h
  refine ⟨pairwiseDisjointB_pairwise hd, fun p hp => ?_⟩
  simpa [withinDeviceB, Bool.and_eq_true, decide_eq_true_eq] using hw p hp

theorem resolveLayout_ok_layoutOk {specs : List MbrPartSpec} {dev : Nat}
    {parts : List MbrPhysPart}
    (h : resolveLayout specs dev = Except.ok parts) :
    layoutOk dev parts = true := by
  unfold resolveLayout at h
  split at h
  · exact Except.noConfusion h
  split at h
  · exact Except.noConfusion h
  split at h
  · exact Except.noConfusion h
  split at h
  · exact Except.noConfusion h
  split at h
  · injection h with h2
    subst h2
    assumption
  · exact Except.noConfusion h

/-! ## Claims -/

/-- C1 (counterexample): with bootcode of length exactly 440, a disk
signature, and bootcode part 2 of length exactly 216, `compile` does not
succeed: it returns the `BootCodeOverlapped` error. -/
theorem C1_counterexample :
    c1builderA.compile =
      Except.error (MbrBuilderError.BootCodeOverlapped 440 216) := rfl

/-- C1 (amended): with bootcode of length 440, a disk signature, and
bootcode part 2 of length 216, `compile` fails with
`BootCodeOverlapped(440, 216)` (a nonempty part 2 requires bootcode of at
most 224 bytes); with bootcode of length 441 and the same signature it
fails with `DiskSigOverlapped`. -/
theorem C1_boundary_behavior :
    c1builderA.compile =
      Except.error (MbrBuilderError.BootCodeOverlapped 440 216) ∧
    c1builderB.compile = Except.error MbrBuilderError.DiskSigOverlapped :=
  ⟨rfl, rfl⟩

/-- C2: on a builder whose spec list carries two `IsBootable` constraints,
`partition_check` does reject with `MoreThan1Bootable`, but `compile`
never invokes it and succeeds. -/
theorem C2_compile_skips_partition_check :
    c2builder.partition_check =
      Except.error MbrBuilderError.MoreThan1Bootable ∧
    c2builder.compile = Except.ok { inner := c2builder } :=
  ⟨rfl, rfl⟩

/-- C3 (counterexample): a builder state whose bootcode is 447 bytes long
(longer than 446) compiles successfully; no oversize error is returned. -/
theorem C3_counterexample :
    c3builder.compile = Except.ok { inner := c3builder } := rfl

/-- C3 (amended): oversized bootcode (over 446 bytes) or bootcode part 2
(over 222 bytes) is rejected by a panic in `set_bootcode` and
`set_bootcode_part2`, carrying the offending length; it is not a returned
`compile`-time error. -/
theorem C3_oversize_rejected_by_panic (b : MbrBuilder) (c1 c2 : List Nat) :
    (446 < c1.length →
      b.set_bootcode c1 =
        Except.error (PanicMsg.bootcodeTooLong c1.length)) ∧
    (c1.length ≤ 446 →
      b.set_bootcode c1 = Except.ok { b with bootcode := some c1 }) ∧
    (222 < c2.length →
      b.set_bootcode_part2 c2 =
        Except.error (PanicMsg.bootcode2TooLong c2.length)) ∧
    (c2.length ≤ 222 →
      b.set_bootcode_part2 c2 =
        Except.ok { b with bootcode_2 := some c2 }) := by
  refine ⟨fun h => ?_, fun h => ?_, fun h => ?_, fun h => ?_⟩
  · simp [MbrBuilder.set_bootcode, h]
  · simp [MbrBuilder.set_bootcode, Nat.not_lt.mpr h]
  · simp [MbrBuilder.set_bootcode_part2, h]
  · simp [MbrBuilder.set_bootcode_part2, Nat.not_lt.mpr h]

/-- C3 (witness): the theorem applied at concrete oversized inputs. -/
theorem C3_witness :
    MbrBuilder.new.set_bootcode (List.replicate 447 0) =
      Except.error (PanicMsg.bootcodeTooLong 447) ∧
    MbrBuilder.new.set_bootcode_part2 (List.replicate 223 0) =
      Except.error (PanicMsg.bootcode2TooLong 223) := by
  have h := C3_oversize_rejected_by_panic MbrBuilder.new
    (List.replicate 447 0) (List.replicate 223 0)
  exact ⟨by simpa using h.1 (by simp), by simpa using h.2.2.1 (by simp)⟩

/-- C4 (counterexample): the `OriginalPhysDriveOverlapped` error carries
no payload, so it cannot carry the offending length: bootcode lengths 219
and 220 produce identical `compile` results. -/
theorem C4_counterexample :
    c4builderA.bootcodeLen = 219 ∧ c4builderB.bootcodeLen = 220 ∧
    c4builderA.compile =
      Except.error MbrBuilderError.OriginalPhysDriveOverlapped ∧
    c4builderA.compile = c4builderB.compile :=
  ⟨rfl, rfl, rfl, rfl⟩

/-- C4 (amended): with `original_physical_drive` set, `compile` fails with
`OriginalPhysDriveOverlapped` exactly when bootcode is longer than 218
bytes; the error carries no length. -/
theorem C4_opd_overlap_iff (b : MbrBuilder)
    (h : b.original_physical_drive.isSome = true) :
    b.compile = Except.error MbrBuilderError.OriginalPhysDriveOverlapped ↔
      218 < b.bootcodeLen := by
  constructor
  · intro hc
    by_contra h1
    simp only [MbrBuilder.compile] at hc
    split at hc
    · rename_i hg
      simp only [Bool.and_eq_true, decide_eq_true_eq] at hg
      exact h1 hg.2
    split at hc
    · injection hc with h2
      exact MbrBuilderError.noConfusion h2
    split at hc
    · injection hc with h2
      exact MbrBuilderError.noConfusion h2
    split at hc
    · injection hc with h2
      exact MbrBuilderError.noConfusion h2
    · exact Except.noConfusion hc
  · intro h1
    simp [MbrBuilder.compile, h, h1]

/-- C4 (witness): the amended theorem at a concrete builder. -/
theorem C4_witness :
    c4builderA.compile =
      Except.error MbrBuilderError.OriginalPhysDriveOverlapped ↔
      218 < c4builderA.bootcodeLen :=
  C4_opd_overlap_iff c4builderA rfl

/-- C5 (counterexample): with bootcode part 2 set to the empty byte
string and bootcode of length 225, `compile` succeeds (the overlap check
tests the part-2 length, treating an empty part 2 as absent). -/
theorem C5_counterexample :
    c5builder.compile = Except.ok { inner := c5builder } := rfl

/-- C5 (amended): with a nonempty bootcode part 2 and bootcode longer
than 224 bytes, `compile` always fails; when no other modern field is
set, the error is `BootCodeOverlapped` carrying both lengths. -/
theorem C5_bootcode2_overlap (b : MbrBuilder)
    (h2 : 0 < b.bootcode2Len) (h1 : 224 < b.bootcodeLen) :
    (∃ e, b.compile = Except.error e) ∧
    (b.original_physical_drive = none → b.timestamp = none →
      b.disk_sig = none →
      b.compile = Except.error
        (MbrBuilderError.BootCodeOverlapped b.bootcodeLen
          b.bootcode2Len)) := by
  constructor
  · simp only [MbrBuilder.compile]
    split
    · exact ⟨_, rfl⟩
    split
    · exact ⟨_, rfl⟩
    split
    · exact ⟨_, rfl⟩
    split
    · exact ⟨_, rfl⟩
    · rename_i hg
      exfalso
      simp only [Bool.and_eq_true, decide_eq_true_eq] at hg
      exact hg ⟨h2, h1⟩
  · intro ho ht hd
    simp [MbrBuilder.compile, ho, ht, hd, h1, h2]

/-- C5 (witness): the amended theorem at a concrete builder (part 2 of
length 1, bootcode of length 225). -/
theorem C5_witness :
    (∃ e, c5builderW.compile = Except.error e) ∧
    (c5builderW.original_physical_drive = none →
      c5builderW.timestamp = none → c5builderW.disk_sig = none →
      c5builderW.compile = Except.error
        (MbrBuilderError.BootCodeOverlapped c5builderW.bootcodeLen
          c5builderW.bootcode2Len)) :=
  C5_bootcode2_overlap c5builderW (by decide) (by decide)

/-- C6: `commit` performs no write at all: its body reaches
`unimplemented!()` before touching the backing store, so it panics and
issues zero write-at-offset calls (the claim expects exactly one 512-byte
write at offset 0). -/
theorem C6_commit_performs_no_write (w : MbrWriter) :
    w.commit = Except.error PanicMsg.unimplemented := rfl

/-- C7: whenever `compile` succeeds and the spec-modelled layout resolver
accepts the writer's partition specs against a device of size `dev`, the
resolved partitions are pairwise disjoint half-open ranges contained in
`[0, dev)`. -/
theorem C7_layout_disjoint_in_bounds (b : MbrBuilder) (w : MbrWriter)
    (dev : Nat) (parts : List MbrPhysPart)
    (_hc : b.compile = Except.ok w)
    (hr : resolveLayout w.inner.partitions dev = Except.ok parts) :
    (parts.Pairwise fun p q => p.end_ ≤ q.start ∨ q.end_ ≤ p.start) ∧
      ∀ p ∈ parts, p.start < p.end_ ∧ p.end_ ≤ dev :=
  layoutOk_bounds (resolveLayout_ok_layoutOk hr)

/-- C7 (witness): the theorem at a one-partition builder on a 4096-byte
device. -/
theorem C7_witness :
    (c7parts.Pairwise fun p q => p.end_ ≤ q.start ∨ q.end_ ≤ p.start) ∧
      ∀ p ∈ c7parts, p.start < p.end_ ∧ p.end_ ≤ 4096 :=
  C7_layout_disjoint_in_bounds c7builder { inner := c7builder } 4096
    c7parts rfl rfl

/-- C8: each builder configuration method returns its input with only the
configured field changed; `partition_add` appends the new spec at the end
of the existing list. -/
theorem C8_builder_methods_frame (b : MbrBuilder) (c1 c2 : List Nat)
    (ts drv sig extra : Nat) (spec : MbrPartSpec) :
    (c1.length ≤ 446 →
      b.set_bootcode c1 = Except.ok { b with bootcode := some c1 }) ∧
    (c2.length ≤ 222 →
      b.set_bootcode_part2 c2 =
        Except.ok { b with bootcode_2 := some c2 }) ∧
    b.set_timestamp ts = { b with timestamp := some ts } ∧
    b.set_original_physical_drive drv =
      { b with original_physical_drive := some drv } ∧
    b.set_disk_signature sig extra =
      { b with disk_sig := some (sig, extra) } ∧
    b.partition_add spec =
      { b with partitions := b.partitions ++ [spec] } := by
  refine ⟨fun h => ?_, fun h => ?_, rfl, rfl, rfl, rfl⟩
  · simp [MbrBuilder.set_bootcode, Nat.not_lt.mpr h]
  · simp [MbrBuilder.set_bootcode_part2, Nat.not_lt.mpr h]

/-- C8 (witness): the theorem at concrete arguments. -/
theorem C8_witness :
    (MbrBuilder.new.set_bootcode [1] =
      Except.ok { MbrBuilder.new with bootcode := some [1] }) ∧
    (MbrBuilder.new.set_bootcode_part2 [2] =
      Except.ok { MbrBuilder.new with bootcode_2 := some [2] }) ∧
    MbrBuilder.new.set_timestamp 3 =
      { MbrBuilder.new with timestamp := some 3 } ∧
    MbrBuilder.new.set_original_physical_drive 4 =
      { MbrBuilder.new with original_physical_drive := some 4 } ∧
    MbrBuilder.new.set_disk_signature 5 6 =
      { MbrBuilder.new with disk_sig := some (5, 6) } ∧
    MbrBuilder.new.partition_add { specs := [] } =
      { MbrBuilder.new with
          partitions := MbrBuilder.new.partitions ++ [{ specs := [] }] } := by
  have h := C8_builder_methods_frame MbrBuilder.new [1] [2] 3 4 5 6
    { specs := [] }
  exact ⟨h.1 (by decide), h.2.1 (by decide), h.2.2.1, h.2.2.2.1,
    h.2.2.2.2.1, h.2.2.2.2.2⟩

/-- C9: a successful `compile` returns a writer holding exactly the
compiled builder's state, unchanged. -/
theorem C9_compile_holds_state (b : MbrBuilder) (w : MbrWriter)
    (h : b.compile = Except.ok w) : w.inner = b := by
  simp only [MbrBuilder.compile] at h
  split at h
  · exact Except.noConfusion h
  split at h
  · exact Except.noConfusion h
  split at h
  · exact Except.noConfusion h
  split at h
  · exact Except.noConfusion h
  · injection h with h2
    subst h2
    rfl

/-- C9 (witness): the theorem at the empty builder. -/
theorem C9_witness :
    (MbrWriter.mk MbrBuilder.new).inner = MbrBuilder.new :=
  C9_compile_holds_state MbrBuilder.new { inner := MbrBuilder.new } rfl

/-- C10: a writer `is_modern` exactly when at least one of bootcode part
2, original physical drive, timestamp, or disk signature is present in
the held builder state. -/
theorem C10_is_modern_iff (w : MbrWriter) :
    w.is_modern = true ↔
      (w.inner.bootcode_2.isSome = true ∨
        w.inner.original_physical_drive.isSome = true ∨
        w.inner.timestamp.isSome = true ∨
        w.inner.disk_sig.isSome = true) := by
  simp [MbrWriter.is_modern, MbrBuilder.is_modern, Bool.or_eq_true,
    or_assoc]

end DrivePart
